import Mathlib

/-!
# Verification of the AWS_Ontology validation and format-sync logic

A shallow embedding of the repository's core logic:

* the RDF data model used throughout (`Triple`, `Graph` as a list of
  triples, the query primitives `objectsOf` / `subjectsOf` that mirror
  rdflib's `Graph.objects` / `Graph.subjects`);
* the transitive subclass helper `_is_subclass_of` of
  `tests/test_ontology_quality.py` (embedded with an explicit fuel
  parameter, since the Python source is an unguarded recursion);
* the consistency-checker rules of `tests/test_ontology_quality.py`
  (inverse pairing, domain/range presence, data-property ranges,
  naming conventions) as pure violation-producing functions;
* `load_ontology_graph` of `utils/common.py` and
  `check_sync_status` / `convert_ttl_to_owl` / `convert_owl_to_ttl` /
  `main` of `tools/sync_formats.py`, with Python exceptions made
  explicit via `Except` / `PyResult` so that try/except behaviour is
  visible at the interface.
-/

/-- An RDF resource identifier (URI) or literal, kept as a plain string. -/
abbrev Resource := String

/-- An RDF triple: subject, predicate, object. -/
abbrev Triple := Resource × Resource × Resource

/-- An rdflib `Graph`, embedded as the list of its triples. -/
abbrev Graph := List Triple

/-! ## Vocabulary constants (rdflib's RDF / RDFS / OWL / XSD namespaces) -/

def rdf_type : Resource := "http://www.w3.org/1999/02/22-rdf-syntax-ns#type"

def rdfs_subClassOf : Resource := "http://www.w3.org/2000/01/rdf-schema#subClassOf"

def rdfs_label : Resource := "http://www.w3.org/2000/01/rdf-schema#label"

def rdfs_comment : Resource := "http://www.w3.org/2000/01/rdf-schema#comment"

def rdfs_domain : Resource := "http://www.w3.org/2000/01/rdf-schema#domain"

def rdfs_range : Resource := "http://www.w3.org/2000/01/rdf-schema#range"

def owl_Class : Resource := "http://www.w3.org/2002/07/owl#Class"

def owl_ObjectProperty : Resource := "http://www.w3.org/2002/07/owl#ObjectProperty"

def owl_DatatypeProperty : Resource := "http://www.w3.org/2002/07/owl#DatatypeProperty"

def owl_NamedIndividual : Resource := "http://www.w3.org/2002/07/owl#NamedIndividual"

def owl_inverseOf : Resource := "http://www.w3.org/2002/07/owl#inverseOf"

def owl_Ontology : Resource := "http://www.w3.org/2002/07/owl#Ontology"

def owl_versionInfo : Resource := "http://www.w3.org/2002/07/owl#versionInfo"

def owl_Restriction : Resource := "http://www.w3.org/2002/07/owl#Restriction"

def owl_onProperty : Resource := "http://www.w3.org/2002/07/owl#onProperty"

/-- The AWS ontology namespace (`ONTOLOGY_NAMESPACE` in `utils/common.py`). -/
def awsNS : String := "http://www.semanticweb.org/aws-ontology#"

/-- Build a resource in the AWS namespace, as `self.aws.<name>` does. -/
def aws (name : String) : Resource := awsNS ++ name

/-! ## Graph query primitives (rdflib `Graph` read API) -/

/-- Membership test `t in graph`. -/
def memTriple (g : Graph) (t : Triple) : Bool := decide (t ∈ g)

/-- `graph.objects(s, p)`: objects of all triples with subject `s` and
predicate `p`. -/
def objectsOf (g : Graph) (s p : Resource) : List Resource :=
  (g.filter (fun t => t.1 == s && t.2.1 == p)).map (fun t => t.2.2)

/-- `graph.subjects(p, o)`: subjects of all triples with predicate `p` and
object `o`. -/
def subjectsOf (g : Graph) (p o : Resource) : List Resource :=
  (g.filter (fun t => t.2.1 == p && t.2.2 == o)).map (fun t => t.1)

/-- `graph.subjects(RDF.type, ty)`: the resources typed `ty`. -/
def subjectsOfType (g : Graph) (ty : Resource) : List Resource :=
  subjectsOf g rdf_type ty

theorem mem_objectsOf {g : Graph} {s p x : Resource} :
    x ∈ objectsOf g s p ↔ (s, p, x) ∈ g := by
  unfold objectsOf
  simp only [List.mem_map, List.mem_filter, Bool.and_eq_true, beq_iff_eq]
  constructor
  · rintro ⟨⟨a, b, c⟩, ⟨hmem, ha, hb⟩, hc⟩
    simp only at ha hb hc
    subst ha; subst hb; subst hc; exact hmem
  · intro h
    exact ⟨(s, p, x), ⟨h, rfl, rfl⟩, rfl⟩

theorem mem_subjectsOf {g : Graph} {p o x : Resource} :
    x ∈ subjectsOf g p o ↔ (x, p, o) ∈ g := by
  unfold subjectsOf
  simp only [List.mem_map, List.mem_filter, Bool.and_eq_true, beq_iff_eq]
  constructor
  · rintro ⟨⟨a, b, c⟩, ⟨hmem, hb, hc⟩, ha⟩
    simp only at ha hb hc
    subst ha; subst hb; subst hc; exact hmem
  · intro h
    exact ⟨(x, p, o), ⟨h, rfl, rfl⟩, rfl⟩

/-! ## The transitive subclass helper `_is_subclass_of`

`tests/test_ontology_quality.py` lines 463-473:

```
def _is_subclass_of(self, subclass, superclass):
    if (subclass, RDFS.subClassOf, superclass) in self.graph:
        return True
    for intermediate in self.graph.objects(subclass, RDFS.subClassOf):
        if self._is_subclass_of(intermediate, superclass):
            return True
    return False
```

The Python recursion carries no visited-set, so it need not terminate.
The embedding takes an explicit fuel bounding the recursion depth:
`none` means the recursion is still running when the fuel runs out, so
`∀ fuel, … = none` expresses divergence of the source. -/

/-- The `for intermediate in …: if recurse(intermediate): return True`
loop body: scan the intermediates left to right, propagating the first
divergence (`none`) or the first `True`. -/
def scanSubclass (f : Resource → Option Bool) : List Resource → Option Bool
  | [] => some false
  | x :: xs =>
    match f x with
    | none => none
    | some true => some true
    | some false => scanSubclass f xs

/-- Fuel-bounded embedding of `_is_subclass_of`. -/
def isSubclassOf : Nat → Graph → Resource → Resource → Option Bool
  | 0, _, _, _ => none
  | n + 1, g, a, b =>
    if memTriple g (a, rdfs_subClassOf, b) then some true
    else scanSubclass (fun x => isSubclassOf n g x b) (objectsOf g a rdfs_subClassOf)

/-- A subclass path of one or more `rdfs:subClassOf` hops from `a` to `b`. -/
inductive SubPath (g : Graph) : Resource → Resource → Prop
  | direct {a b : Resource} : (a, rdfs_subClassOf, b) ∈ g → SubPath g a b
  | step {a c b : Resource} : (a, rdfs_subClassOf, c) ∈ g → SubPath g c b → SubPath g a b

/-- The subclass-of relation of `g` has no (nontrivial) cycle. -/
def Acyclic (g : Graph) : Prop := ∀ a : Resource, ¬ SubPath g a a

theorem SubPath.trans {g : Graph} {a b c : Resource}
    (h1 : SubPath g a b) (h2 : SubPath g b c) : SubPath g a c := by
  induction h1 with
  | direct h => exact SubPath.step h h2
  | step h _ ih => exact SubPath.step h (ih h2)

/-! ### Soundness of the fuelled search -/

theorem scanSubclass_eq_some_true {f : Resource → Option Bool} {l : List Resource}
    (h : scanSubclass f l = some true) : ∃ x ∈ l, f x = some true := by
  induction l with
  | nil => simp [scanSubclass] at h
  | cons x xs ih =>
    rw [scanSubclass] at h
    rcases hx : f x with _ | b
    · rw [hx] at h; exact absurd h (by simp)
    · rcases b with _ | _
      · rw [hx] at h
        obtain ⟨y, hy, hfy⟩ := ih h
        exact ⟨y, List.mem_cons_of_mem _ hy, hfy⟩
      · exact ⟨x, List.mem_cons_self _ _, hx⟩

theorem scanSubclass_eq_some_false {f : Resource → Option Bool} {l : List Resource}
    (h : scanSubclass f l = some false) : ∀ x ∈ l, f x = some false := by
  induction l with
  | nil => intro x hx; exact absurd hx (List.not_mem_nil x)
  | cons x xs ih =>
    rw [scanSubclass] at h
    rcases hx : f x with _ | b
    · rw [hx] at h; exact absurd h (by simp)
    · rcases b with _ | _
      · rw [hx] at h
        intro y hy
        rcases List.mem_cons.mp hy with rfl | hy'
        · exact hx
        · exact ih h y hy'
      · rw [hx] at h; exact absurd h (by simp)

theorem scanSubclass_eq_none {f : Resource → Option Bool} {l : List Resource}
    (h : scanSubclass f l = none) : ∃ x ∈ l, f x = none := by
  induction l with
  | nil => simp [scanSubclass] at h
  | cons x xs ih =>
    rw [scanSubclass] at h
    rcases hx : f x with _ | b
    · exact ⟨x, List.mem_cons_self _ _, hx⟩
    · rcases b with _ | _
      · rw [hx] at h
        obtain ⟨y, hy, hfy⟩ := ih h
        exact ⟨y, List.mem_cons_of_mem _ hy, hfy⟩
      · rw [hx] at h; exact absurd h (by simp)

theorem scanSubclass_complete {f : Resource → Option Bool} {l : List Resource}
    (hnone : ∀ x ∈ l, f x ≠ none) {x : Resource} (hx : x ∈ l)
    (hfx : f x = some true) : scanSubclass f l = some true := by
  induction l with
  | nil => exact absurd hx (List.not_mem_nil x)
  | cons y ys ih =>
    rw [scanSubclass]
    rcases hy : f y with _ | b
    · exact absurd hy (hnone y (List.mem_cons_self _ _))
    · rcases b with _ | _
      · rcases List.mem_cons.mp hx with rfl | hx'
        · rw [hy] at hfx; exact absurd hfx (by simp)
        · exact ih (fun z hz => hnone z (List.mem_cons_of_mem _ hz)) hx'
      · rfl

/-- Soundness: a `some true` answer really exhibits a subclass path. -/
theorem isSubclassOf_some_true {g : Graph} {b : Resource} :
    ∀ (n : Nat) (a : Resource), isSubclassOf n g a b = some true → SubPath g a b := by
  intro n
  induction n with
  | zero => intro a h; exact absurd h (by simp [isSubclassOf])
  | succ n ih =>
    intro a h
    rw [isSubclassOf] at h
    by_cases hd : memTriple g (a, rdfs_subClassOf, b)
    · exact SubPath.direct (by simpa [memTriple] using hd)
    · rw [if_neg hd] at h
      obtain ⟨x, hx, hfx⟩ := scanSubclass_eq_some_true h
      exact SubPath.step (mem_objectsOf.mp hx) (ih x hfx)

/-- Soundness: a `some false` answer means there is no subclass path. -/
theorem isSubclassOf_some_false {g : Graph} {b : Resource} :
    ∀ (n : Nat) (a : Resource), isSubclassOf n g a b = some false → ¬ SubPath g a b := by
  intro n
  induction n with
  | zero => intro a h; exact absurd h (by simp [isSubclassOf])
  | succ n ih =>
    intro a h hpath
    rw [isSubclassOf] at h
    by_cases hd : memTriple g (a, rdfs_subClassOf, b)
    · rw [if_pos hd] at h; exact absurd h (by simp)
    · rw [if_neg hd] at h
      have hall := scanSubclass_eq_some_false h
      cases hpath with
      | direct hmem =>
        exact hd (by simpa [memTriple] using hmem)
      | step hmem hrest =>
        rename_i c
        exact ih c (hall c (mem_objectsOf.mpr hmem)) hrest

/-! ### Completeness on acyclic graphs -/

/-- A `none` answer at fuel `n` yields a chain of `n` subclass edges
starting at `a`: the recursion was still descending when fuel ran out. -/
theorem isSubclassOf_none_chain {g : Graph} {b : Resource} :
    ∀ (n : Nat) (a : Resource), isSubclassOf n g a b = none →
      ∃ c : Nat → Resource, c 0 = a ∧ ∀ i < n, (c i, rdfs_subClassOf, c (i + 1)) ∈ g := by
  intro n
  induction n with
  | zero =>
    intro a _
    exact ⟨fun _ => a, rfl, by omega⟩
  | succ n ih =>
    intro a h
    rw [isSubclassOf] at h
    by_cases hd : memTriple g (a, rdfs_subClassOf, b)
    · rw [if_pos hd] at h; exact absurd h (by simp)
    · rw [if_neg hd] at h
      obtain ⟨x, hx, hfx⟩ := scanSubclass_eq_none h
      obtain ⟨c, hc0, hc⟩ := ih x hfx
      refine ⟨fun i => if i = 0 then a else c (i - 1), by simp, ?_⟩
      intro i hi
      rcases Nat.eq_zero_or_pos i with rfl | hpos
      · simp only [if_pos rfl, if_neg (by omega : ¬ (0 + 1 = 0))]
        simpa [hc0] using mem_objectsOf.mp hx
      · simp only [if_neg (by omega : ¬ (i = 0)), if_neg (by omega : ¬ (i + 1 = 0))]
        have hlt : i - 1 < n := by omega
        have hedge := hc (i - 1) hlt
        have h1 : i - 1 + 1 = i := by omega
        have h2 : i + 1 - 1 = i := by omega
        rw [h1] at hedge
        rw [h2]
        exact hedge

/-- Edges along a chain compose into a subclass path. -/
theorem chain_subPath {g : Graph} {c : Nat → Resource} {n : Nat}
    (hc : ∀ i < n, (c i, rdfs_subClassOf, c (i + 1)) ∈ g) :
    ∀ i j, i < j → j ≤ n → SubPath g (c i) (c j) := by
  intro i j
  induction j with
  | zero => intro h _; omega
  | succ j ih =>
    intro hij hjn
    rcases Nat.lt_or_ge i j with hlt | hge
    · exact SubPath.trans (ih hlt (by omega)) (SubPath.direct (hc j (by omega)))
    · have hij' : i = j := by omega
      subst hij'
      exact SubPath.direct (hc i (by omega))

/-- On an acyclic graph, fuel `|g| + 1` is always enough: the recursion
depth is bounded by the longest subclass chain, and a longer chain would
repeat an edge and close a cycle. -/
theorem isSubclassOf_acyclic_ne_none {g : Graph} (hac : Acyclic g) (a b : Resource) :
    isSubclassOf (g.length + 1) g a b ≠ none := by
  intro h
  obtain ⟨c, _, hc⟩ := isSubclassOf_none_chain (g.length + 1) a h
  have hmaps : ∀ i ∈ Finset.range (g.length + 1),
      (fun i => (c i, rdfs_subClassOf, c (i + 1))) i ∈ g.toFinset := by
    intro i hi
    rw [List.mem_toFinset]
    exact hc i (Finset.mem_range.mp hi)
  have hcard : g.toFinset.card < (Finset.range (g.length + 1)).card := by
    rw [Finset.card_range]
    exact Nat.lt_succ_of_le g.toFinset_card_le
  obtain ⟨i, hi, j, hj, hij, heq⟩ :=
    Finset.exists_ne_map_eq_of_card_lt_of_maps_to hcard hmaps
  have hci : c i = c j := by
    have := congrArg (fun t : Triple => t.1) heq
    simpa using this
  have hin : i < g.length + 1 := Finset.mem_range.mp hi
  have hjn : j < g.length + 1 := Finset.mem_range.mp hj
  rcases Nat.lt_or_ge i j with hlt | hge
  · have hp := chain_subPath hc i j hlt (Nat.le_of_lt hjn)
    rw [← hci] at hp
    exact hac (c i) hp
  · have hlt' : j < i := by omega
    have hp := chain_subPath hc j i hlt' (Nat.le_of_lt hin)
    rw [hci] at hp
    exact hac (c j) hp

/-! ### Concrete subclass graphs for the termination and reachability claims -/

def clsA : Resource := aws "ClassA"

def clsB : Resource := aws "ClassB"

def clsC : Resource := aws "ClassC"

/-- A single subclass edge `ClassA subClassOf ClassB`. -/
def gChain1 : Graph := [(clsA, rdfs_subClassOf, clsB)]

/-- The two-edge chain `ClassA subClassOf ClassB subClassOf ClassC`. -/
def gChain2 : Graph := [(clsA, rdfs_subClassOf, clsB), (clsB, rdfs_subClassOf, clsC)]

/-- The subclass cycle `ClassA subClassOf ClassB subClassOf ClassA`. -/
def gCyc : Graph := [(clsA, rdfs_subClassOf, clsB), (clsB, rdfs_subClassOf, clsA)]

theorem subPath_gChain1 {x y : Resource} (h : SubPath gChain1 x y) :
    x = clsA ∧ y = clsB := by
  induction h with
  | @direct a b hm =>
    have heq := List.mem_singleton.mp hm
    injection heq with h1 h23
    injection h23 with h2 h3
    exact ⟨h1, h3⟩
  | @step a c b hm _ ih =>
    have heq := List.mem_singleton.mp hm
    injection heq with h1 h23
    injection h23 with h2 h3
    rw [h3] at ih
    exact absurd ih.1 (by decide)

theorem acyclic_gChain1 : Acyclic gChain1 := by
  intro a h
  obtain ⟨h1, h2⟩ := subPath_gChain1 h
  rw [h1] at h2
  exact absurd h2 (by decide)

theorem subPath_gChain2 {x y : Resource} (h : SubPath gChain2 x y) :
    (x = clsA ∧ (y = clsB ∨ y = clsC)) ∨ (x = clsB ∧ y = clsC) := by
  induction h with
  | @direct a b hm =>
    rcases List.mem_cons.mp hm with heq | hm'
    · injection heq with h1 h23
      injection h23 with h2 h3
      exact Or.inl ⟨h1, Or.inl h3⟩
    · have heq := List.mem_singleton.mp hm'
      injection heq with h1 h23
      injection h23 with h2 h3
      exact Or.inr ⟨h1, h3⟩
  | @step a c b hm _ ih =>
    rcases List.mem_cons.mp hm with heq | hm'
    · injection heq with h1 h23
      injection h23 with h2 h3
      rw [h3] at ih
      rcases ih with ⟨hBA, _⟩ | ⟨_, hy⟩
      · exact absurd hBA (by decide)
      · exact Or.inl ⟨h1, Or.inr hy⟩
    · have heq := List.mem_singleton.mp hm'
      injection heq with h1 h23
      injection h23 with h2 h3
      rw [h3] at ih
      rcases ih with ⟨hCA, _⟩ | ⟨hCB, _⟩
      · exact absurd hCA (by decide)
      · exact absurd hCB (by decide)

theorem acyclic_gChain2 : Acyclic gChain2 := by
  intro a h
  rcases subPath_gChain2 h with ⟨h1, h2 | h2⟩ | ⟨h1, h2⟩
  · rw [h1] at h2; exact absurd h2 (by decide)
  · rw [h1] at h2; exact absurd h2 (by decide)
  · rw [h1] at h2; exact absurd h2 (by decide)

/-- On the cycle, the search diverges from both `ClassA` and `ClassB`
towards the unrelated `ClassC`: every fuel runs out. -/
theorem isSubclassOf_gCyc_aux : ∀ n : Nat,
    isSubclassOf n gCyc clsA clsC = none ∧ isSubclassOf n gCyc clsB clsC = none := by
  intro n
  induction n with
  | zero => exact ⟨rfl, rfl⟩
  | succ n ih =>
    have hA : memTriple gCyc (clsA, rdfs_subClassOf, clsC) = false := by decide
    have hB : memTriple gCyc (clsB, rdfs_subClassOf, clsC) = false := by decide
    have hoA : objectsOf gCyc clsA rdfs_subClassOf = [clsB] := by decide
    have hoB : objectsOf gCyc clsB rdfs_subClassOf = [clsA] := by decide
    constructor
    · rw [isSubclassOf, hA, hoA]
      simp only [Bool.false_eq_true, if_false]
      rw [scanSubclass, ih.2]
    · rw [isSubclassOf, hB, hoB]
      simp only [Bool.false_eq_true, if_false]
      rw [scanSubclass, ih.1]

/-! ## URI local names

Throughout the checker a resource's local name is computed as
`str(resource).split('#')[-1]`: the part after the last `'#'`, or the
whole string when no `'#'` occurs. -/

/-- The part of `r` after the last `'#'` (all of `r` if there is none). -/
def localName (r : Resource) : String :=
  ⟨(r.data.reverse.takeWhile (fun c => c ≠ '#')).reverse⟩

/-! ## Consistency-checker rules (`tests/test_ontology_quality.py`) -/

/-- The fixed `expected_inverses` pair list of `test_inverse_properties`. -/
def expectedInverses : List (Resource × Resource) :=
  [(aws "hasRegion", aws "regionOf"),
   (aws "hasAvailabilityZone", aws "availabilityZoneOf"),
   (aws "contains", aws "containedBy"),
   (aws "attachedTo", aws "attachmentOf"),
   (aws "memberOf", aws "hasMember"),
   (aws "uses", aws "usedBy"),
   (aws "manages", aws "managedBy"),
   (aws "monitors", aws "monitoredBy"),
   (aws "dependsOn", aws "dependencyOf"),
   (aws "isSourceFor", aws "hasSource")]

/-- `inverse_declared` for one pair: either direction of `owl:inverseOf`. -/
def inverseDeclared (g : Graph) (p1 p2 : Resource) : Bool :=
  memTriple g (p1, owl_inverseOf, p2) || memTriple g (p2, owl_inverseOf, p1)

/-- The inverse-pairing rule: every expected pair must be declared in at
least one direction. -/
def test_inverse_properties (g : Graph) : Bool :=
  expectedInverses.all (fun pq => inverseDeclared g pq.1 pq.2)

/-- A graph declaring only the forward direction of every expected pair. -/
def gOneDir : Graph :=
  expectedInverses.map (fun pq => (pq.1, owl_inverseOf, pq.2))

/-- The exemption list of `test_domain_range_consistency`: seven generic
property names plus the `inverse_props` list. -/
def domainRangeExemptNames : List String :=
  ["uses", "manages", "dependsOn", "contains", "attachedTo", "isSourceFor", "subscribesTo",
   "containedBy", "containerImageUsedBy", "controls", "createdAfter", "dependencyOf",
   "enforcedBy", "hasMember", "hasSource", "hasSubscriber", "managedBy", "methodOf",
   "migratedTo", "monitoredBy", "nodeGroupOf", "optimizes", "podRunsOn", "precedes",
   "queueReceivesFrom", "receivesCostFrom", "receivesEventFrom", "regionOf", "replaces",
   "repositoryContains", "resourceOf", "ruleOf", "stageOf", "stepFunctionTriggeredBy",
   "targetOf", "taskDefinitionOf", "topicReceivesFrom", "usedBy"]

/-- `test_domain_range_consistency`: the ObjectProperty-typed resources
that are not exempted and have neither a domain nor a range. -/
def domain_range_violations (g : Graph) : List Resource :=
  (subjectsOfType g owl_ObjectProperty).filter
    (fun p => !(domainRangeExemptNames.contains (localName p))
      && (objectsOf g p rdfs_domain).isEmpty && (objectsOf g p rdfs_range).isEmpty)

/-- The range-presence part of `test_data_property_ranges`: the
DatatypeProperty-typed resources, other than local name `path`, with no
declared range (the domain is never consulted). -/
def data_property_range_violations (g : Graph) : List Resource :=
  (subjectsOfType g owl_DatatypeProperty).filter
    (fun p => !(localName p == "path") && (objectsOf g p rdfs_range).isEmpty)

/-- The XSD namespace. -/
def xsdNS : String := "http://www.w3.org/2001/XMLSchema#"

/-- The allow-list of `test_data_property_ranges` for XSD range types. -/
def validXSDTypes : List Resource :=
  [xsdNS ++ "string", xsdNS ++ "integer", xsdNS ++ "boolean",
   xsdNS ++ "dateTime", xsdNS ++ "decimal", xsdNS ++ "float"]

/-- The XSD-validity part of `test_data_property_ranges`: declared ranges
in the XSD namespace that are outside the allow-list. -/
def data_property_invalid_xsd (g : Graph) : List Resource :=
  ((subjectsOfType g owl_DatatypeProperty).flatMap
      (fun p => objectsOf g p rdfs_range)).filter
    (fun r => r.startsWith xsdNS && !(validXSDTypes.contains r))

/-- `test_naming_conventions` on classes: a nonempty local name whose
first character is not uppercase is flagged; empty names are skipped by
the `if class_name:` guard, so `name[0]` is only read on nonempty names
(the `[] => false` branch below is unreachable under the guard). -/
def firstCharIsUpper (s : String) : Bool :=
  match s.data with
  | [] => false
  | c :: _ => c.isUpper

/-- First character lowercase test for the property half of the rule. -/
def firstCharIsLower (s : String) : Bool :=
  match s.data with
  | [] => false
  | c :: _ => c.isLower

/-- Classes flagged by `test_naming_conventions`. -/
def naming_class_violations (g : Graph) : List Resource :=
  (subjectsOfType g owl_Class).filter
    (fun c => !(localName c == "") && !(firstCharIsUpper (localName c)))

/-- Properties flagged by `test_naming_conventions`. -/
def naming_property_violations (g : Graph) : List Resource :=
  (subjectsOfType g owl_ObjectProperty ++ subjectsOfType g owl_DatatypeProperty).filter
    (fun p => !(localName p == "") && !(firstCharIsLower (localName p)))

/-! ### Rule characterizations -/

/-- C6: for every graph and every pair of the fixed inverse list, the
inverse-pairing rule accepts exactly when at least one direction of
`owl:inverseOf` is present; in particular, a graph declaring only the
forward direction of every pair passes the rule. -/
theorem inverse_rule_either_direction :
    (∀ g : Graph, test_inverse_properties g = true ↔
      ∀ pq ∈ expectedInverses,
        (pq.1, owl_inverseOf, pq.2) ∈ g ∨ (pq.2, owl_inverseOf, pq.1) ∈ g) ∧
    test_inverse_properties gOneDir = true := by
  constructor
  · intro g
    simp [test_inverse_properties, List.all_eq_true, inverseDeclared, memTriple]
  · decide

def dpInstanceCount : Resource := aws "instanceCount"

/-- A DatatypeProperty with a domain but no range. -/
def gDataProp : Graph :=
  [(dpInstanceCount, rdf_type, owl_DatatypeProperty),
   (dpInstanceCount, rdfs_domain, aws "EC2Instance")]

/-- C7 counterexample: `instanceCount` is a DatatypeProperty with a
declared domain and no range. The claim says a property with a domain is
never flagged, but the data-property rule flags it (it requires a range
regardless of domain), while the domain/range rule — which only looks at
ObjectProperty-typed resources — never sees it. -/
theorem domain_range_rule_counterexample :
    (dpInstanceCount, rdfs_domain, aws "EC2Instance") ∈ gDataProp ∧
    dpInstanceCount ∈ data_property_range_violations gDataProp ∧
    dpInstanceCount ∉ domain_range_violations gDataProp := by decide

/-- C7 (amended): the domain/range-presence rule checks only
ObjectProperty-typed resources, flagging a non-exempt one exactly when it
has neither domain nor range; DatatypeProperty-typed resources are
covered by the separate range rule, which flags any of them (except
local name `path`) without a declared range, regardless of domain. -/
theorem domain_range_rules_characterization (g : Graph) (p : Resource) :
    (p ∈ domain_range_violations g ↔
      (p, rdf_type, owl_ObjectProperty) ∈ g ∧
        localName p ∉ domainRangeExemptNames ∧
        objectsOf g p rdfs_domain = [] ∧ objectsOf g p rdfs_range = []) ∧
    (p ∈ data_property_range_violations g ↔
      (p, rdf_type, owl_DatatypeProperty) ∈ g ∧
        localName p ≠ "path" ∧ objectsOf g p rdfs_range = []) := by
  constructor
  · unfold domain_range_violations subjectsOfType
    rw [List.mem_filter, mem_subjectsOf]
    simp [List.isEmpty_iff, and_assoc]
  · unfold data_property_range_violations subjectsOfType
    rw [List.mem_filter, mem_subjectsOf]
    simp [List.isEmpty_iff, and_assoc]

/-- C10: the naming-convention rule never reports a Class or Property
whose URI local name is empty (the `if name:` guard skips them before
`name[0]` is read), and conversely every flagged resource has a nonempty
local name, so the first-character access is in bounds. -/
theorem naming_rule_empty_localname_safe (g : Graph) (r : Resource) :
    (localName r = "" →
      r ∉ naming_class_violations g ∧ r ∉ naming_property_violations g) ∧
    ((r ∈ naming_class_violations g ∨ r ∈ naming_property_violations g) →
      localName r ≠ "") := by
  constructor
  · intro h
    constructor
    · intro hmem
      rw [naming_class_violations, List.mem_filter] at hmem
      have hp := hmem.2
      rw [h] at hp
      simp at hp
    · intro hmem
      rw [naming_property_violations, List.mem_filter] at hmem
      have hp := hmem.2
      rw [h] at hp
      simp at hp
  · intro hmem h
    rcases hmem with hmem | hmem
    · rw [naming_class_violations, List.mem_filter] at hmem
      have hp := hmem.2
      rw [h] at hp
      simp at hp
    · rw [naming_property_violations, List.mem_filter] at hmem
      have hp := hmem.2
      rw [h] at hp
      simp at hp

/-- A graph whose only class has an empty local name. -/
def gEmptyName : Graph := [(awsNS, rdf_type, owl_Class)]

/-- Witness for the naming-rule safety theorem: the resource
`…aws-ontology#` has empty local name and is not flagged. -/
theorem naming_rule_empty_localname_safe_witness :
    localName awsNS = "" ∧
      awsNS ∉ naming_class_violations gEmptyName ∧
      awsNS ∉ naming_property_violations gEmptyName :=
  ⟨by decide, (naming_rule_empty_localname_safe gEmptyName awsNS).1 (by decide)⟩

/-! ### Claims about the subclass check -/

/-- C1: on the subclass cycle `ClassA ⊑ ClassB ⊑ ClassA`, the query
`_is_subclass_of(ClassA, ClassC)` never returns: the recursion has no
visited-set, and every fuel bound is exhausted (the Python original hits
the interpreter's recursion limit instead of producing a boolean). -/
theorem subclass_check_cycle_diverges :
    ∀ fuel : Nat, isSubclassOf fuel gCyc clsA clsC = none :=
  fun fuel => (isSubclassOf_gCyc_aux fuel).1

/-- C2 counterexample: reachability "through zero or more hops" includes
every resource reaching itself in zero hops, but on the acyclic graph
`ClassA ⊑ ClassB` the check `_is_subclass_of(ClassA, ClassA)` returns
`False` (with ample fuel, so this is the value the Python code returns). -/
theorem subclass_check_zero_hops_counterexample :
    Acyclic gChain1 ∧ (clsA = clsA ∨ SubPath gChain1 clsA clsA) ∧
      isSubclassOf (gChain1.length + 1) gChain1 clsA clsA = some false :=
  ⟨acyclic_gChain1, Or.inl rfl, by decide⟩

/-- C2 (amended): on every acyclic graph, `_is_subclass_of(a, b)`
terminates (fuel `|g| + 1` suffices) and returns `True` exactly when `b`
is reachable from `a` through one or more subclass-of hops. -/
theorem subclass_check_reachability (g : Graph) (a b : Resource)
    (hac : Acyclic g) :
    isSubclassOf (g.length + 1) g a b = some true ↔ SubPath g a b := by
  constructor
  · exact isSubclassOf_some_true _ a
  · intro hp
    rcases hval : isSubclassOf (g.length + 1) g a b with _ | v
    · exact absurd hval (isSubclassOf_acyclic_ne_none hac a b)
    · rcases v with _ | _
      · exact absurd hp (isSubclassOf_some_false _ a hval)
      · rfl

/-- Witness: on the chain `ClassA ⊑ ClassB ⊑ ClassC` the amended claim
applies and the indirect membership `isSubclassOf(ClassA, ClassC)` holds. -/
theorem subclass_check_reachability_witness :
    Acyclic gChain2 ∧
      (isSubclassOf (gChain2.length + 1) gChain2 clsA clsC = some true ↔
        SubPath gChain2 clsA clsC) :=
  ⟨acyclic_gChain2, subclass_check_reachability gChain2 clsA clsC acyclic_gChain2⟩

/-! ## The loader and the sync tool, with Python exceptions explicit

`graph.parse`, `graph.serialize`, file writes and `compare.isomorphic`
are the fallible collaborator primitives; each is passed in as an
`Except PyExn _` value (or function) describing what the call would do.
`PyResult` is a Python callable's observable outcome at its interface:
either a returned value or an uncaught exception. -/

/-- The Python exception kinds relevant to the loader and sync tool. -/
inductive PyExn
  | notFound
  | parseError
  | serializationError
  | comparisonError
  deriving DecidableEq

/-- Observable outcome of a Python call: a return value or an uncaught
exception propagating to the caller. -/
inductive PyResult (α : Type)
  | returns (v : α)
  | raises (e : PyExn)
  deriving DecidableEq

/-- The `except Exception: … return None` clause of
`load_ontology_graph` (`utils/common.py` lines 62-68). -/
def pyCatchToNone (body : Except PyExn (Option Graph)) : PyResult (Option Graph) :=
  match body with
  | .ok v => .returns v
  | .error _ => .returns none

/-- The `except Exception: … return False` clause of the sync-tool
functions (`tools/sync_formats.py`). -/
def pyCatchToFalse (body : Except PyExn Bool) : PyResult Bool :=
  match body with
  | .ok b => .returns b
  | .error _ => .returns false

/-- The `try:` block of `load_ontology_graph`: short-circuit `None` when
rdflib is unavailable, otherwise run `graph.parse`, which may raise. -/
def load_ontology_graph_body (avail : Bool) (parseRes : Except PyExn Graph) :
    Except PyExn (Option Graph) :=
  if avail = false then .ok none
  else
    match parseRes with
    | .ok g => .ok (some g)
    | .error e => .error e

/-- `load_ontology_graph` at its interface. -/
def load_ontology_graph_outcome (avail : Bool) (parseRes : Except PyExn Graph) :
    PyResult (Option Graph) :=
  pyCatchToNone (load_ontology_graph_body avail parseRes)

/-- `load_ontology_graph` as its callers see the returned value. -/
def load_ontology_graph (avail : Bool) (parseRes : Except PyExn Graph) :
    Option Graph :=
  match load_ontology_graph_outcome avail parseRes with
  | .returns v => v
  | .raises _ => none

/-- C4 counterexample: on a missing input file (`graph.parse` raises the
file-not-found error) the loader returns the value `None`; no
`NotFoundError` propagates to the caller. -/
theorem loader_missing_file_counterexample :
    load_ontology_graph_outcome true (Except.error PyExn.notFound) =
        PyResult.returns none ∧
      load_ontology_graph_outcome true (Except.error PyExn.notFound) ≠
        PyResult.raises PyExn.notFound := by
  constructor
  · rfl
  · decide

/-- C4 (amended): the loader never lets an exception propagate — a
malformed file or a missing path is caught, logged and mapped to the
return value `None` (as is an unavailable rdflib) — and it returns
`some g` exactly when rdflib is available and parsing succeeds with `g`. -/
theorem loader_returns_none_on_failure (avail : Bool)
    (parseRes : Except PyExn Graph) :
    (∀ e : PyExn, load_ontology_graph_outcome avail parseRes ≠ PyResult.raises e) ∧
    (∀ e : PyExn, parseRes = Except.error e →
      load_ontology_graph_outcome avail parseRes = PyResult.returns none) ∧
    (∀ g : Graph, load_ontology_graph_outcome avail parseRes =
        PyResult.returns (some g) ↔ (avail = true ∧ parseRes = Except.ok g)) := by
  rcases avail with _ | _ <;> rcases parseRes with e | g <;>
    simp [load_ontology_graph_outcome, load_ontology_graph_body, pyCatchToNone]

/-- Witness: a malformed file is mapped to the return value `None`. -/
theorem loader_returns_none_on_failure_witness :
    load_ontology_graph_outcome true (Except.error PyExn.parseError) =
      PyResult.returns none :=
  (loader_returns_none_on_failure true
    (Except.error PyExn.parseError)).2.1 PyExn.parseError rfl

/-! ## `check_sync_status` (`tools/sync_formats.py` lines 83-112) -/

/-- The `try:` block of `check_sync_status`: parse both files (either may
raise), compare triple counts, and only then consult
`compare.isomorphic` (which may itself raise). The second component
records whether the isomorphism primitive was invoked. -/
def check_sync_status_body (owlParse ttlParse : Except PyExn Graph)
    (iso : Graph → Graph → Except PyExn Bool) : Except PyExn Bool × Bool :=
  match owlParse with
  | .error e => (.error e, false)
  | .ok owlG =>
    match ttlParse with
    | .error e => (.error e, false)
    | .ok ttlG =>
      if owlG.length ≠ ttlG.length then (.ok false, false)
      else
        match iso owlG ttlG with
        | .error e => (.error e, true)
        | .ok b => if b = false then (.ok false, true) else (.ok true, true)

/-- `check_sync_status` at its interface. -/
def check_sync_status_outcome (owlParse ttlParse : Except PyExn Graph)
    (iso : Graph → Graph → Except PyExn Bool) : PyResult Bool :=
  pyCatchToFalse (check_sync_status_body owlParse ttlParse iso).1

/-- `check_sync_status` as its callers see it: the returned boolean,
paired with the iso-invocation marker of the run. -/
def check_sync_status (owlParse ttlParse : Except PyExn Graph)
    (iso : Graph → Graph → Except PyExn Bool) : Bool × Bool :=
  (match check_sync_status_outcome owlParse ttlParse iso with
    | .returns b => b
    | .raises _ => false,
   (check_sync_status_body owlParse ttlParse iso).2)

/-- C3: a triple-count mismatch makes `check_sync_status` return `False`
without consulting the isomorphism primitive, and whenever the primitive
is consulted the two counts were equal (and both parses succeeded). -/
theorem count_mismatch_skips_isomorphism
    (iso : Graph → Graph → Except PyExn Bool) (op tp : Except PyExn Graph) :
    ((check_sync_status op tp iso).2 = true →
      ∃ og tg, op = Except.ok og ∧ tp = Except.ok tg ∧ og.length = tg.length) ∧
    (∀ og tg, op = Except.ok og → tp = Except.ok tg → og.length ≠ tg.length →
      check_sync_status op tp iso = (false, false)) := by
  constructor
  · intro h
    rcases op with e | og
    · simp [check_sync_status, check_sync_status_body] at h
    · rcases tp with e | tg
      · simp [check_sync_status, check_sync_status_body] at h
      · by_cases hlen : og.length = tg.length
        · exact ⟨og, tg, rfl, rfl, hlen⟩
        · simp [check_sync_status, check_sync_status_body, hlen] at h
  · rintro og tg rfl rfl hne
    simp [check_sync_status, check_sync_status_outcome, check_sync_status_body,
      pyCatchToFalse, hne]

/-- A one-triple graph for concrete sync runs. -/
def gOneTriple : Graph := [(clsA, rdfs_subClassOf, clsB)]

/-- An isomorphism oracle succeeding with `True`. -/
def isoTrue : Graph → Graph → Except PyExn Bool := fun _ _ => Except.ok true

/-- An isomorphism oracle succeeding with `False`. -/
def isoFalse : Graph → Graph → Except PyExn Bool := fun _ _ => Except.ok false

/-- Witness: with counts 1 and 0 the comparator reports mismatch and the
iso-invocation marker stays `false`. -/
theorem count_mismatch_skips_isomorphism_witness :
    check_sync_status (Except.ok gOneTriple) (Except.ok ([] : Graph)) isoTrue =
      (false, false) :=
  (count_mismatch_skips_isomorphism isoTrue (Except.ok gOneTriple)
    (Except.ok [])).2 gOneTriple [] rfl rfl (by decide)

/-! ## The `check` subcommand (`main`, `tools/sync_formats.py` lines 129-198) -/

/-- Printed on a triple-count mismatch. -/
def sync_msg_count_mismatch (owlSize ttlSize : Nat) : String :=
  "❌ Different number of triples: OWL=" ++ toString owlSize ++
    ", TTL=" ++ toString ttlSize

/-- Printed on an isomorphism mismatch. No triple-level diff accompanies it. -/
def sync_msg_not_equivalent : String := "❌ Files are not semantically equivalent"

/-- Printed on success. -/
def sync_msg_synchronized (size : Nat) : String :=
  "✅ Files are synchronized (" ++ toString size ++ " triples each)"

/-- Printed by the `except` clause (the exception text is elided here). -/
def sync_msg_failed : String := "❌ Failed to check synchronization"

/-- The console output of one `check_sync_status` run. -/
def check_sync_messages (owlParse ttlParse : Except PyExn Graph)
    (iso : Graph → Graph → Except PyExn Bool) : List String :=
  match owlParse with
  | .error _ => [sync_msg_failed]
  | .ok owlG =>
    match ttlParse with
    | .error _ => [sync_msg_failed]
    | .ok ttlG =>
      if owlG.length ≠ ttlG.length then
        [sync_msg_count_mismatch owlG.length ttlG.length]
      else
        match iso owlG ttlG with
        | .error _ => [sync_msg_failed]
        | .ok b =>
          if b = false then [sync_msg_not_equivalent]
          else [sync_msg_synchronized owlG.length]

/-- Two serializations are synchronized: both parse, the triple counts
agree and the isomorphism comparison succeeds with `True`. -/
def Synchronized (owlParse ttlParse : Except PyExn Graph)
    (iso : Graph → Graph → Except PyExn Bool) : Prop :=
  ∃ og tg, owlParse = Except.ok og ∧ ttlParse = Except.ok tg ∧
    og.length = tg.length ∧ iso og tg = Except.ok true

/-- The `check` action of `main`: pre-check that the `--owl` path exists
(exit 1 if not), then `sys.exit(0 if check_sync_status(…) else 1)`. -/
def main_check_exit (owlExists : Bool) (owlParse ttlParse : Except PyExn Graph)
    (iso : Graph → Graph → Except PyExn Bool) : Nat :=
  if owlExists = false then 1
  else if (check_sync_status owlParse ttlParse iso).1 = true then 0 else 1

theorem check_sync_status_true_iff (op tp : Except PyExn Graph)
    (iso : Graph → Graph → Except PyExn Bool) :
    (check_sync_status op tp iso).1 = true ↔ Synchronized op tp iso := by
  rcases op with e | og
  · simp [check_sync_status, check_sync_status_outcome, check_sync_status_body,
      pyCatchToFalse, Synchronized]
  · rcases tp with e | tg
    · simp [check_sync_status, check_sync_status_outcome, check_sync_status_body,
        pyCatchToFalse, Synchronized]
    · by_cases hlen : og.length = tg.length
      · rcases hiso : iso og tg with e | b
        · simp [check_sync_status, check_sync_status_outcome, check_sync_status_body,
            pyCatchToFalse, Synchronized, hlen, hiso]
        · rcases b with _ | _
          · simp [check_sync_status, check_sync_status_outcome, check_sync_status_body,
              pyCatchToFalse, Synchronized, hlen, hiso]
          · simp [check_sync_status, check_sync_status_outcome, check_sync_status_body,
              pyCatchToFalse, Synchronized, hlen, hiso]
      · simp [check_sync_status, check_sync_status_outcome, check_sync_status_body,
          pyCatchToFalse, Synchronized, hlen]

/-- Two distinct one-triple graphs: equal counts, not isomorphic. -/
def gClsA : Graph := [(clsA, rdf_type, owl_Class)]

/-- The counterpart graph typing `ClassB` instead. -/
def gClsB : Graph := [(clsB, rdf_type, owl_Class)]

/-- C5 counterexample: on an isomorphism mismatch (equal counts,
non-isomorphic graphs) the `check` subcommand exits 1 but prints only
the generic non-equivalence message — neither a triple-count line nor
any triple-level diff appears in the output. -/
theorem check_exit_print_counterexample :
    main_check_exit true (Except.ok gClsA) (Except.ok gClsB) isoFalse = 1 ∧
      check_sync_messages (Except.ok gClsA) (Except.ok gClsB) isoFalse =
        [sync_msg_not_equivalent] := by
  constructor
  · rfl
  · rfl

/-- C5 (amended): provided a missing `--owl` path implies the OWL parse
fails, the `check` subcommand exits 0 exactly when the two serializations
are synchronized and exits 1 otherwise; on a triple-count mismatch it
prints the two counts, and on an isomorphism mismatch only a generic
non-equivalence message (no triple-level diff). -/
theorem check_exit_code_characterization (owlExists : Bool)
    (owlParse ttlParse : Except PyExn Graph)
    (iso : Graph → Graph → Except PyExn Bool)
    (hmiss : owlExists = false → ∃ e, owlParse = Except.error e) :
    (main_check_exit owlExists owlParse ttlParse iso = 0 ↔
      Synchronized owlParse ttlParse iso) ∧
    (main_check_exit owlExists owlParse ttlParse iso = 1 ↔
      ¬ Synchronized owlParse ttlParse iso) ∧
    (∀ og tg, owlParse = Except.ok og → ttlParse = Except.ok tg →
      og.length ≠ tg.length →
      check_sync_messages owlParse ttlParse iso =
        [sync_msg_count_mismatch og.length tg.length]) ∧
    (∀ og tg, owlParse = Except.ok og → ttlParse = Except.ok tg →
      og.length = tg.length → iso og tg = Except.ok false →
      check_sync_messages owlParse ttlParse iso = [sync_msg_not_equivalent]) := by
  refine ⟨?_, ?_, ?_, ?_⟩
  · rcases owlExists with _ | _
    · obtain ⟨e, rfl⟩ := hmiss rfl
      simp [main_check_exit, Synchronized]
    · rw [main_check_exit]
      simp only [Bool.true_eq_false, if_false]
      rw [← check_sync_status_true_iff owlParse ttlParse iso]
      by_cases h : (check_sync_status owlParse ttlParse iso).1 = true
      · simp [h]
      · simp [h]
  · rcases owlExists with _ | _
    · obtain ⟨e, rfl⟩ := hmiss rfl
      simp [main_check_exit, Synchronized]
    · rw [main_check_exit]
      simp only [Bool.true_eq_false, if_false]
      rw [← check_sync_status_true_iff owlParse ttlParse iso]
      by_cases h : (check_sync_status owlParse ttlParse iso).1 = true
      · simp [h]
      · simp [h]
  · rintro og tg rfl rfl hne
    simp [check_sync_messages, hne]
  · rintro og tg rfl rfl hlen hiso
    simp [check_sync_messages, hlen, hiso]

/-- Witness: with both parses returning the same graph and a succeeding
isomorphism oracle, the exit-code equivalence applies and in particular
`check` exits 0. -/
theorem check_exit_code_characterization_witness :
    (main_check_exit true (Except.ok gClsA) (Except.ok gClsA) isoTrue = 0 ↔
      Synchronized (Except.ok gClsA) (Except.ok gClsA) isoTrue) ∧
    main_check_exit true (Except.ok gClsA) (Except.ok gClsA) isoTrue = 0 := by
  have h := (check_exit_code_characterization true (Except.ok gClsA)
    (Except.ok gClsA) isoTrue (fun h => absurd h (by decide))).1
  exact ⟨h, h.mpr ⟨gClsA, gClsA, rfl, rfl, rfl, rfl⟩⟩

/-! ## The converters (`tools/sync_formats.py` lines 33-80) -/

/-- The `try:` block of `convert_ttl_to_owl`: load (a `None` result
returns `False`), serialize to the target format, write the file;
serialization and writing may raise inside the `try`. -/
def convert_ttl_to_owl_body (avail : Bool) (parseRes : Except PyExn Graph)
    (serialize : Graph → Except PyExn String)
    (writeFile : String → Except PyExn Unit) : Except PyExn Bool :=
  match load_ontology_graph avail parseRes with
  | none => .ok false
  | some g =>
    match serialize g with
    | .error e => .error e
    | .ok content =>
      match writeFile content with
      | .error e => .error e
      | .ok _ => .ok true

/-- `convert_ttl_to_owl` at its interface. -/
def convert_ttl_to_owl_outcome (avail : Bool) (parseRes : Except PyExn Graph)
    (serialize : Graph → Except PyExn String)
    (writeFile : String → Except PyExn Unit) : PyResult Bool :=
  pyCatchToFalse (convert_ttl_to_owl_body avail parseRes serialize writeFile)

/-- The `try:` block of `convert_owl_to_ttl`; identical structure, with
source format XML and target format Turtle (the format strings do not
appear in this abstraction). -/
def convert_owl_to_ttl_body (avail : Bool) (parseRes : Except PyExn Graph)
    (serialize : Graph → Except PyExn String)
    (writeFile : String → Except PyExn Unit) : Except PyExn Bool :=
  match load_ontology_graph avail parseRes with
  | none => .ok false
  | some g =>
    match serialize g with
    | .error e => .error e
    | .ok content =>
      match writeFile content with
      | .error e => .error e
      | .ok _ => .ok true

/-- `convert_owl_to_ttl` at its interface. -/
def convert_owl_to_ttl_outcome (avail : Bool) (parseRes : Except PyExn Graph)
    (serialize : Graph → Except PyExn String)
    (writeFile : String → Except PyExn Unit) : PyResult Bool :=
  pyCatchToFalse (convert_owl_to_ttl_body avail parseRes serialize writeFile)

/-- C9: `check_sync_status`, `convert_ttl_to_owl` and `convert_owl_to_ttl`
always return a boolean at their interface: whatever the collaborator
primitives do, no exception propagates, and a failure inside the `try:`
block yields the return value `False`. -/
theorem sync_functions_never_raise (avail : Bool)
    (parseRes op tp : Except PyExn Graph)
    (serialize : Graph → Except PyExn String)
    (writeFile : String → Except PyExn Unit)
    (iso : Graph → Graph → Except PyExn Bool) :
    (∃ b, convert_ttl_to_owl_outcome avail parseRes serialize writeFile =
      PyResult.returns b) ∧
    (∃ b, convert_owl_to_ttl_outcome avail parseRes serialize writeFile =
      PyResult.returns b) ∧
    (∃ b, check_sync_status_outcome op tp iso = PyResult.returns b) ∧
    (∀ e, convert_ttl_to_owl_body avail parseRes serialize writeFile =
        Except.error e →
      convert_ttl_to_owl_outcome avail parseRes serialize writeFile =
        PyResult.returns false) ∧
    (∀ e, convert_owl_to_ttl_body avail parseRes serialize writeFile =
        Except.error e →
      convert_owl_to_ttl_outcome avail parseRes serialize writeFile =
        PyResult.returns false) ∧
    (∀ e, (check_sync_status_body op tp iso).1 = Except.error e →
      check_sync_status_outcome op tp iso = PyResult.returns false) := by
  refine ⟨?_, ?_, ?_, ?_, ?_, ?_⟩
  · rcases h : convert_ttl_to_owl_body avail parseRes serialize writeFile with e | b
    · exact ⟨false, by simp [convert_ttl_to_owl_outcome, pyCatchToFalse, h]⟩
    · exact ⟨b, by simp [convert_ttl_to_owl_outcome, pyCatchToFalse, h]⟩
  · rcases h : convert_owl_to_ttl_body avail parseRes serialize writeFile with e | b
    · exact ⟨false, by simp [convert_owl_to_ttl_outcome, pyCatchToFalse, h]⟩
    · exact ⟨b, by simp [convert_owl_to_ttl_outcome, pyCatchToFalse, h]⟩
  · rcases h : (check_sync_status_body op tp iso).1 with e | b
    · exact ⟨false, by simp [check_sync_status_outcome, pyCatchToFalse, h]⟩
    · exact ⟨b, by simp [check_sync_status_outcome, pyCatchToFalse, h]⟩
  · intro e h
    simp [convert_ttl_to_owl_outcome, pyCatchToFalse, h]
  · intro e h
    simp [convert_owl_to_ttl_outcome, pyCatchToFalse, h]
  · intro e h
    simp [check_sync_status_outcome, pyCatchToFalse, h]

/-- Witness: a serialization error inside `convert_ttl_to_owl` is caught
and surfaces as the return value `False`. -/
theorem sync_functions_never_raise_witness :
    convert_ttl_to_owl_outcome true (Except.ok gClsA)
        (fun _ => Except.error PyExn.serializationError)
        (fun _ => Except.ok ()) = PyResult.returns false :=
  (sync_functions_never_raise true (Except.ok gClsA) (Except.ok gClsA)
    (Except.ok gClsA) (fun _ => Except.error PyExn.serializationError)
    (fun _ => Except.ok ()) isoTrue).2.2.2.1 PyExn.serializationError rfl

/-! ## The checker only reads the graph (frame property)

The rdflib `Graph` API calls a rule may issue are reified as operations:
the three read calls used by `TestOntologyQuality` (`triples`,
`subjects`, `objects` / the `in` membership test, which is a `triples`
pattern query) and the two mutators `add` / `remove` of the `Graph`
interface, which the checker never issues. `checkerOps` lists, in
order, the calls the rule set makes on a given graph; running them
through the operational semantics `applyOp` leaves the graph unchanged
because every listed call is a read. -/

def owl_cardinality : Resource := "http://www.w3.org/2002/07/owl#cardinality"

def owl_minCardinality : Resource := "http://www.w3.org/2002/07/owl#minCardinality"

def owl_maxCardinality : Resource := "http://www.w3.org/2002/07/owl#maxCardinality"

def owl_qualifiedCardinality : Resource :=
  "http://www.w3.org/2002/07/owl#qualifiedCardinality"

def owl_minQualifiedCardinality : Resource :=
  "http://www.w3.org/2002/07/owl#minQualifiedCardinality"

def owl_maxQualifiedCardinality : Resource :=
  "http://www.w3.org/2002/07/owl#maxQualifiedCardinality"

/-- The ontology root resource URI. -/
def ontologyURI : Resource := "http://www.semanticweb.org/aws-ontology"

/-- An rdflib `Graph` API call. -/
inductive GraphOp
  | queryTriples (s p o : Option Resource)
  | querySubjects (p o : Resource)
  | queryObjects (s p : Resource)
  | addTriple (t : Triple)
  | removeTriple (t : Triple)

/-- Operational effect of one call on the triple store: `add` inserts
(sets have no duplicates), `remove` deletes, queries do not touch it. -/
def applyOp (g : Graph) : GraphOp → Graph
  | .addTriple t => if t ∈ g then g else g ++ [t]
  | .removeTriple t => g.filter (fun u => !(u == t))
  | _ => g

/-- Run a call sequence against the store. -/
def runOps (g : Graph) (ops : List GraphOp) : Graph := ops.foldl applyOp g

/-- A call that reads but does not mutate. -/
def IsReadOp : GraphOp → Prop
  | .addTriple _ => False
  | .removeTriple _ => False
  | _ => True

/-- Calls of `test_ontology_metadata`. -/
def metadataOps : List GraphOp :=
  [.queryTriples (some ontologyURI) (some rdf_type) (some owl_Ontology),
   .queryTriples (some ontologyURI) (some rdfs_label) none,
   .queryTriples (some ontologyURI) (some rdfs_comment) none,
   .queryTriples (some ontologyURI) (some owl_versionInfo) none]

/-- Calls of `test_class_consistency`: enumerate the classes, then query
each one's labels and comments. -/
def classConsistencyOps (g : Graph) : List GraphOp :=
  GraphOp.querySubjects rdf_type owl_Class ::
    (subjectsOfType g owl_Class).flatMap
      (fun c => [.queryTriples (some c) (some rdfs_label) none,
                 .queryTriples (some c) (some rdfs_comment) none])

/-- Calls of `test_property_consistency`. -/
def propertyConsistencyOps (g : Graph) : List GraphOp :=
  GraphOp.querySubjects rdf_type owl_ObjectProperty ::
    GraphOp.querySubjects rdf_type owl_DatatypeProperty ::
      ((subjectsOfType g owl_ObjectProperty ++ subjectsOfType g owl_DatatypeProperty).flatMap
        (fun p => [.queryTriples (some p) (some rdfs_label) none,
                   .queryTriples (some p) (some rdfs_comment) none]))

/-- Calls of `test_domain_range_consistency`. -/
def domainRangeOps (g : Graph) : List GraphOp :=
  GraphOp.querySubjects rdf_type owl_ObjectProperty ::
    (subjectsOfType g owl_ObjectProperty).flatMap
      (fun p => [.queryObjects p rdfs_domain, .queryObjects p rdfs_range])

/-- Calls of `test_class_hierarchy_consistency`: ten membership tests
against `subClassOf AWSResource`. -/
def hierarchyOps : List GraphOp :=
  [aws "ComputeResource", aws "StorageResource", aws "NetworkingResource",
   aws "SecurityResource", aws "IdentityResource", aws "DatabaseResource",
   aws "MonitoringResource", aws "AWSAccount", aws "AWSRegion",
   aws "AvailabilityZone"].map
    (fun c => .queryTriples (some c) (some rdfs_subClassOf) (some (aws "AWSResource")))

/-- Calls of `test_inverse_properties`: two membership tests per pair. -/
def inverseOps : List GraphOp :=
  expectedInverses.flatMap
    (fun pq => [.queryTriples (some pq.1) (some owl_inverseOf) (some pq.2),
                .queryTriples (some pq.2) (some owl_inverseOf) (some pq.1)])

/-- Calls of `test_required_aws_classes`: one class enumeration. -/
def requiredClassOps : List GraphOp :=
  [.querySubjects rdf_type owl_Class]

/-- Calls of `test_owl_dl_compliance`: four type enumerations. -/
def owlDlOps : List GraphOp :=
  [.querySubjects rdf_type owl_Class,
   .querySubjects rdf_type owl_NamedIndividual,
   .querySubjects rdf_type owl_ObjectProperty,
   .querySubjects rdf_type owl_DatatypeProperty]

/-- Calls of `test_naming_conventions`: three type enumerations (the
name checks read no further triples). -/
def namingOps : List GraphOp :=
  [.querySubjects rdf_type owl_Class,
   .querySubjects rdf_type owl_ObjectProperty,
   .querySubjects rdf_type owl_DatatypeProperty]

/-- Calls of `test_data_property_ranges`. -/
def dataRangeOps (g : Graph) : List GraphOp :=
  GraphOp.querySubjects rdf_type owl_DatatypeProperty ::
    (subjectsOfType g owl_DatatypeProperty).map (fun p => .queryObjects p rdfs_range)

/-- Calls of `test_iam_specific_structure`'s restriction scan: the
`IAMRole` restriction nodes and, per node, the membership tests of
`_is_cardinality_restriction`. -/
def iamRestrictionOps (g : Graph) : List GraphOp :=
  GraphOp.queryObjects (aws "IAMRole") rdfs_subClassOf ::
    (objectsOf g (aws "IAMRole") rdfs_subClassOf).flatMap
      (fun r =>
        [.queryTriples (some r) (some rdf_type) (some owl_Restriction),
         .queryTriples (some r) (some owl_onProperty) (some (aws "hasTrustRelationship")),
         .queryTriples (some r) (some owl_cardinality) none,
         .queryTriples (some r) (some owl_minCardinality) none,
         .queryTriples (some r) (some owl_maxCardinality) none,
         .queryTriples (some r) (some owl_qualifiedCardinality) none,
         .queryTriples (some r) (some owl_minQualifiedCardinality) none,
         .queryTriples (some r) (some owl_maxQualifiedCardinality) none])

/-- All calls the consistency rule set issues on `g`, in evaluation order. -/
def checkerOps (g : Graph) : List GraphOp :=
  metadataOps ++ classConsistencyOps g ++ propertyConsistencyOps g ++
    domainRangeOps g ++ hierarchyOps ++ inverseOps ++ requiredClassOps ++
    owlDlOps ++ namingOps ++ dataRangeOps g ++ iamRestrictionOps g

theorem applyOp_read {g : Graph} {op : GraphOp} (h : IsReadOp op) :
    applyOp g op = g := by
  cases op with
  | addTriple t => exact h.elim
  | removeTriple t => exact h.elim
  | queryTriples s p o => rfl
  | querySubjects p o => rfl
  | queryObjects s p => rfl

theorem runOps_reads (ops : List GraphOp) (h : ∀ op ∈ ops, IsReadOp op) :
    ∀ g : Graph, runOps g ops = g := by
  induction ops with
  | nil => intro g; rfl
  | cons op ops ih =>
    intro g
    rw [runOps, List.foldl_cons, applyOp_read (h op (List.mem_cons_self _ _))]
    exact ih (fun o ho => h o (List.mem_cons_of_mem _ ho)) g

theorem checkerOps_all_read (g : Graph) : ∀ op ∈ checkerOps g, IsReadOp op := by
  intro op hop
  rw [checkerOps] at hop
  simp only [List.mem_append] at hop
  rcases hop with ((((((((((h | h) | h) | h) | h) | h) | h) | h) | h) | h) | h)
  · simp only [metadataOps, List.mem_cons, List.not_mem_nil, or_false] at h
    rcases h with rfl | rfl | rfl | rfl <;> trivial
  · simp only [classConsistencyOps, List.mem_cons, List.mem_flatMap,
      List.not_mem_nil, or_false] at h
    rcases h with rfl | ⟨c, -, rfl | rfl⟩ <;> trivial
  · simp only [propertyConsistencyOps, List.mem_cons, List.mem_flatMap,
      List.not_mem_nil, or_false] at h
    rcases h with rfl | rfl | ⟨p, -, rfl | rfl⟩ <;> trivial
  · simp only [domainRangeOps, List.mem_cons, List.mem_flatMap,
      List.not_mem_nil, or_false] at h
    rcases h with rfl | ⟨p, -, rfl | rfl⟩ <;> trivial
  · simp only [hierarchyOps, List.mem_map, List.mem_cons,
      List.not_mem_nil, or_false] at h
    obtain ⟨c, -, rfl⟩ := h; trivial
  · simp only [inverseOps, List.mem_flatMap, List.mem_cons,
      List.not_mem_nil, or_false] at h
    obtain ⟨pq, -, rfl | rfl⟩ := h <;> trivial
  · simp only [requiredClassOps, List.mem_cons, List.not_mem_nil, or_false] at h
    rcases h with rfl; trivial
  · simp only [owlDlOps, List.mem_cons, List.not_mem_nil, or_false] at h
    rcases h with rfl | rfl | rfl | rfl <;> trivial
  · simp only [namingOps, List.mem_cons, List.not_mem_nil, or_false] at h
    rcases h with rfl | rfl | rfl <;> trivial
  · simp only [dataRangeOps, List.mem_cons, List.mem_map,
      List.not_mem_nil, or_false] at h
    rcases h with rfl | ⟨p, -, rfl⟩ <;> trivial
  · simp only [iamRestrictionOps, List.mem_cons, List.mem_flatMap,
      List.not_mem_nil, or_false] at h
    rcases h with h | ⟨r, -, h⟩
    · subst h; trivial
    · rcases h with h | h | h | h | h | h | h | h <;> subst h <;> trivial

/-- C8: running the full consistency rule set's call sequence leaves the
graph's triple set unchanged — the checker only reads. -/
theorem checker_rules_leave_graph_unchanged (g : Graph) :
    runOps g (checkerOps g) = g :=
  runOps_reads (checkerOps g) (checkerOps_all_read g) g
